import Mathlib

/-!
Shallow embedding of the Go album-registry service (`main.go` and the
extended variant of the same file).

The registry state is the package-level slice `albums : []album`,
modelled as `List Album`.  Each Gin handler reads the path parameter and
(for POST/PUT/PATCH) the decoded JSON body; routing and JSON decoding
are external to the registry logic, so a handler is modelled as a pure
function from the current state and its inputs to the next state and a
`Response` (what `c.IndentedJSON` writes).  Go's `float64` price field
is modelled as `ℚ`: the only operation the code performs on it is the
comparison `Price != 0`.
-/

set_option autoImplicit false

namespace AlbumRegistry

/-- The `album` struct: ID, Title, Artist are Go strings, Price is `float64`
(modelled as `ℚ`). -/
structure Album where
  ID : String
  Title : String
  Artist : String
  Price : ℚ
deriving DecidableEq, Repr

/-- What a handler writes with `c.IndentedJSON (status, body)`:
status 200 with an album body, status 201 with an album body,
status 200 with a `gin.H{"message": ...}` body, or status 404 with a
`gin.H{"message": ...}` body. -/
inductive Response where
  | ok (body : Album)
  | created (body : Album)
  | okMsg (msg : String)
  | notFound (msg : String)
deriving DecidableEq, Repr

/-- The seeded initial value of the `albums` slice. -/
def initialAlbums : List Album :=
  [ { ID := "1", Title := "Blue Train", Artist := "John Coltrane",
      Price := mkRat 5699 100 },
    { ID := "2", Title := "Jeru", Artist := "Gerry Mulligan",
      Price := mkRat 1799 100 },
    { ID := "3", Title := "Sarah Vaughan and Clifford Brown",
      Artist := "Sarah Vaughan", Price := mkRat 3999 100 } ]

/-- `getAlbumByID`: linear scan over `albums`; on the first element with
`a.ID == id` respond 200 with that element; after the loop respond 404. -/
def getAlbumByID : List Album → String → Response
  | [], _ => .notFound "album not found"
  | a :: rest, id => if a.ID = id then .ok a else getAlbumByID rest id

/-- `postAlbums`: `albums = append(albums, newAlbum)`, then respond 201
with `newAlbum`. -/
def postAlbums (albums : List Album) (newAlbum : Album) :
    List Album × Response :=
  (albums ++ [newAlbum], .created newAlbum)

/-- The in-place field updates of `updateAlbum` on the matched element
`albums[i]`: each of Title, Artist, Price is overwritten only when the
corresponding field of the request body is non-zero-valued. -/
def applyPatch (a updatedAlbum : Album) : Album :=
  { a with
    Title := if updatedAlbum.Title ≠ "" then updatedAlbum.Title else a.Title,
    Artist := if updatedAlbum.Artist ≠ "" then updatedAlbum.Artist else a.Artist,
    Price := if updatedAlbum.Price ≠ 0 then updatedAlbum.Price else a.Price }

/-- `updateAlbum` (PATCH handler): scan for the first `albums[i]` with
`a.ID == id`; mutate its fields per the non-empty/non-zero rule and
respond 200 with the request body `updatedAlbum`; else respond 404. -/
def updateAlbum : List Album → String → Album → List Album × Response
  | [], _, _ => ([], .notFound "album not found")
  | a :: rest, id, updatedAlbum =>
    if a.ID = id then
      (applyPatch a updatedAlbum :: rest, .ok updatedAlbum)
    else
      let p := updateAlbum rest id updatedAlbum
      (a :: p.1, p.2)

/-- `overwriteAlbum` (PUT handler): scan for the first `albums[i]` with
`a.ID == id`; set `albums[i] = updatedAlbum` whole and respond 200 with
`updatedAlbum`; else respond 404. -/
def overwriteAlbum : List Album → String → Album → List Album × Response
  | [], _, _ => ([], .notFound "album not found")
  | a :: rest, id, updatedAlbum =>
    if a.ID = id then
      (updatedAlbum :: rest, .ok updatedAlbum)
    else
      let p := overwriteAlbum rest id updatedAlbum
      (a :: p.1, p.2)

/-- `deleteAlbum` (DELETE handler): scan for the first `albums[i]` with
`a.ID == id`; remove it via `albums = append(albums[:i], albums[i+1:]...)`
and respond 200 with the deletion message; else respond 404. -/
def deleteAlbum : List Album → String → List Album × Response
  | [], _ => ([], .notFound "album not found")
  | a :: rest, id =>
    if a.ID = id then
      (rest, .okMsg "album deleted")
    else
      let p := deleteAlbum rest id
      (a :: p.1, p.2)

/-! ### Characterization lemmas for the linear scans -/

lemma getAlbumByID_of_forall_ne (l : List Album) (id : String)
    (h : ∀ a ∈ l, a.ID ≠ id) :
    getAlbumByID l id = Response.notFound "album not found" := by
  induction l with
  | nil => rfl
  | cons b t ih =>
    have hb : b.ID ≠ id := h b (by simp)
    simp only [getAlbumByID, if_neg hb]
    exact ih fun c hc => h c (by simp [hc])

lemma getAlbumByID_notFound (l : List Album) (id : String)
    (h : getAlbumByID l id = Response.notFound "album not found") :
    ∀ a ∈ l, a.ID ≠ id := by
  induction l with
  | nil => simp
  | cons b t ih =>
    intro c hc
    by_cases hb : b.ID = id
    · simp [getAlbumByID, hb] at h
    · simp only [getAlbumByID, if_neg hb] at h
      rcases List.mem_cons.mp hc with rfl | hc
      · exact hb
      · exact ih h c hc

lemma getAlbumByID_first (l₁ : List Album) (a : Album) (l₂ : List Album)
    (id : String) (ha : a.ID = id) (hfirst : ∀ b ∈ l₁, b.ID ≠ id) :
    getAlbumByID (l₁ ++ a :: l₂) id = Response.ok a := by
  induction l₁ with
  | nil => simp [getAlbumByID, ha]
  | cons b t ih =>
    have hb : b.ID ≠ id := hfirst b (by simp)
    simp only [List.cons_append, getAlbumByID, if_neg hb]
    exact ih fun c hc => hfirst c (by simp [hc])

lemma getAlbumByID_ok (id : String) (a : Album) :
    ∀ l : List Album, getAlbumByID l id = Response.ok a →
      a.ID = id ∧ ∃ l₁ l₂, l = l₁ ++ a :: l₂ ∧ ∀ b ∈ l₁, b.ID ≠ id := by
  intro l
  induction l with
  | nil => intro h; simp [getAlbumByID] at h
  | cons b t ih =>
    intro h
    by_cases hb : b.ID = id
    · simp only [getAlbumByID, if_pos hb] at h
      cases h
      exact ⟨hb, [], t, rfl, by simp⟩
    · simp only [getAlbumByID, if_neg hb] at h
      obtain ⟨ha, l₁, l₂, heq, hfirst⟩ := ih h
      subst heq
      refine ⟨ha, b :: l₁, l₂, rfl, ?_⟩
      intro c hc
      rcases List.mem_cons.mp hc with rfl | hc
      · exact hb
      · exact hfirst c hc

lemma overwriteAlbum_of_forall_ne (l : List Album) (id : String) (r : Album)
    (h : ∀ a ∈ l, a.ID ≠ id) :
    overwriteAlbum l id r = (l, Response.notFound "album not found") := by
  induction l with
  | nil => rfl
  | cons b t ih =>
    have hb : b.ID ≠ id := h b (by simp)
    simp [overwriteAlbum, hb, ih fun c hc => h c (by simp [hc])]

lemma overwriteAlbum_notFound (l : List Album) (id : String) (r : Album)
    (h : (overwriteAlbum l id r).2 = Response.notFound "album not found") :
    ∀ a ∈ l, a.ID ≠ id := by
  induction l with
  | nil => simp
  | cons b t ih =>
    intro c hc
    by_cases hb : b.ID = id
    · simp [overwriteAlbum, hb] at h
    · rcases List.mem_cons.mp hc with rfl | hc
      · exact hb
      · refine ih ?_ c hc
        simpa [overwriteAlbum, hb] using h

lemma overwriteAlbum_first (l₁ : List Album) (a : Album) (l₂ : List Album)
    (id : String) (r : Album) (ha : a.ID = id)
    (hfirst : ∀ b ∈ l₁, b.ID ≠ id) :
    overwriteAlbum (l₁ ++ a :: l₂) id r = (l₁ ++ r :: l₂, Response.ok r) := by
  induction l₁ with
  | nil => simp [overwriteAlbum, ha]
  | cons b t ih =>
    have hb : b.ID ≠ id := hfirst b (by simp)
    simp [overwriteAlbum, hb, ih fun c hc => hfirst c (by simp [hc])]

lemma updateAlbum_of_forall_ne (l : List Album) (id : String) (patch : Album)
    (h : ∀ a ∈ l, a.ID ≠ id) :
    updateAlbum l id patch = (l, Response.notFound "album not found") := by
  induction l with
  | nil => rfl
  | cons b t ih =>
    have hb : b.ID ≠ id := h b (by simp)
    simp [updateAlbum, hb, ih fun c hc => h c (by simp [hc])]

lemma updateAlbum_notFound (l : List Album) (id : String) (patch : Album)
    (h : (updateAlbum l id patch).2 = Response.notFound "album not found") :
    ∀ a ∈ l, a.ID ≠ id := by
  induction l with
  | nil => simp
  | cons b t ih =>
    intro c hc
    by_cases hb : b.ID = id
    · simp [updateAlbum, hb] at h
    · rcases List.mem_cons.mp hc with rfl | hc
      · exact hb
      · refine ih ?_ c hc
        simpa [updateAlbum, hb] using h

lemma updateAlbum_first (l₁ : List Album) (a : Album) (l₂ : List Album)
    (id : String) (patch : Album) (ha : a.ID = id)
    (hfirst : ∀ b ∈ l₁, b.ID ≠ id) :
    updateAlbum (l₁ ++ a :: l₂) id patch
      = (l₁ ++ applyPatch a patch :: l₂, Response.ok patch) := by
  induction l₁ with
  | nil => simp [updateAlbum, ha]
  | cons b t ih =>
    have hb : b.ID ≠ id := hfirst b (by simp)
    simp [updateAlbum, hb, ih fun c hc => hfirst c (by simp [hc])]

lemma deleteAlbum_of_forall_ne (l : List Album) (id : String)
    (h : ∀ a ∈ l, a.ID ≠ id) :
    deleteAlbum l id = (l, Response.notFound "album not found") := by
  induction l with
  | nil => rfl
  | cons b t ih =>
    have hb : b.ID ≠ id := h b (by simp)
    simp [deleteAlbum, hb, ih fun c hc => h c (by simp [hc])]

lemma deleteAlbum_notFound (l : List Album) (id : String)
    (h : (deleteAlbum l id).2 = Response.notFound "album not found") :
    ∀ a ∈ l, a.ID ≠ id := by
  induction l with
  | nil => simp
  | cons b t ih =>
    intro c hc
    by_cases hb : b.ID = id
    · simp [deleteAlbum, hb] at h
    · rcases List.mem_cons.mp hc with rfl | hc
      · exact hb
      · refine ih ?_ c hc
        simpa [deleteAlbum, hb] using h

lemma deleteAlbum_first (l₁ : List Album) (a : Album) (l₂ : List Album)
    (id : String) (ha : a.ID = id) (hfirst : ∀ b ∈ l₁, b.ID ≠ id) :
    deleteAlbum (l₁ ++ a :: l₂) id = (l₁ ++ l₂, Response.okMsg "album deleted") := by
  induction l₁ with
  | nil => simp [deleteAlbum, ha]
  | cons b t ih =>
    have hb : b.ID ≠ id := hfirst b (by simp)
    simp [deleteAlbum, hb, ih fun c hc => hfirst c (by simp [hc])]

/-- C1: `getAlbumByID` signals NotFound exactly when no stored record has the
requested id; any 200 response carries a stored record whose id equals the
input under case-sensitive string equality and which is the first such record
in insertion order; conversely the first match is what is returned. -/
theorem C1_getAlbumByID_correct (albums : List Album) (id : String) :
    (getAlbumByID albums id = Response.notFound "album not found" ↔
      ∀ a ∈ albums, a.ID ≠ id)
    ∧ (∀ a, getAlbumByID albums id = Response.ok a →
        a.ID = id ∧ ∃ l₁ l₂, albums = l₁ ++ a :: l₂ ∧ ∀ b ∈ l₁, b.ID ≠ id)
    ∧ (∀ l₁ a l₂, albums = l₁ ++ a :: l₂ → a.ID = id →
        (∀ b ∈ l₁, b.ID ≠ id) → getAlbumByID albums id = Response.ok a) := by
  refine ⟨⟨getAlbumByID_notFound albums id, getAlbumByID_of_forall_ne albums id⟩,
    fun a h => getAlbumByID_ok id a albums h, ?_⟩
  rintro l₁ a l₂ rfl ha hfirst
  exact getAlbumByID_first l₁ a l₂ id ha hfirst

/-- Witness for C1 at a concrete input: on the seeded registry, the record
with id "2" is found as the first (and only) match. -/
theorem C1_witness :
    getAlbumByID initialAlbums "2"
      = Response.ok { ID := "2", Title := "Jeru", Artist := "Gerry Mulligan",
                      Price := mkRat 1799 100 } :=
  (C1_getAlbumByID_correct initialAlbums "2").2.2
    [{ ID := "1", Title := "Blue Train", Artist := "John Coltrane",
       Price := mkRat 5699 100 }]
    { ID := "2", Title := "Jeru", Artist := "Gerry Mulligan",
      Price := mkRat 1799 100 }
    [{ ID := "3", Title := "Sarah Vaughan and Clifford Brown",
       Artist := "Sarah Vaughan", Price := mkRat 3999 100 }]
    rfl rfl (by decide)

/-- C2: `postAlbums` appends the new record at the end unconditionally,
echoes it back with status 201, and never rejects a duplicate id: the number
of stored records carrying the new record's id always grows by one. -/
theorem C2_postAlbums_appends (albums : List Album) (newAlbum : Album) :
    postAlbums albums newAlbum = (albums ++ [newAlbum], Response.created newAlbum)
    ∧ (postAlbums albums newAlbum).1.countP (fun a => a.ID == newAlbum.ID)
        = albums.countP (fun a => a.ID == newAlbum.ID) + 1 := by
  refine ⟨rfl, ?_⟩
  simp [postAlbums, List.countP_append, List.countP_cons]

/-- C8: on the freshly seeded registry, `getAlbumByID "1"` succeeds with the
record of id "1", title "Blue Train". -/
theorem C8_seeded_get_blue_train :
    getAlbumByID initialAlbums "1"
      = Response.ok { ID := "1", Title := "Blue Train",
                      Artist := "John Coltrane", Price := mkRat 5699 100 } := by
  decide

/-- C3 counterexample: when a record with the same id is already stored,
`postAlbums` followed by `getAlbumByID` returns the OLD first match, not the
record just submitted.  Creating a second record with id "1" on the seeded
registry and then fetching "1" yields the seeded "Blue Train" record, which
differs from the submitted one. -/
theorem C3_counterexample :
    getAlbumByID (postAlbums initialAlbums
        { ID := "1", Title := "Blue Train Again", Artist := "X", Price := 1 }).1 "1"
      = Response.ok { ID := "1", Title := "Blue Train",
                      Artist := "John Coltrane", Price := mkRat 5699 100 }
    ∧ getAlbumByID (postAlbums initialAlbums
        { ID := "1", Title := "Blue Train Again", Artist := "X", Price := 1 }).1 "1"
      ≠ Response.ok { ID := "1", Title := "Blue Train Again",
                      Artist := "X", Price := 1 } := by
  decide

/-- C3 (amended): if no already-stored record carries the new record's id,
then `postAlbums` followed by `getAlbumByID` on the new id returns exactly
the submitted record. -/
theorem C3_create_then_get (albums : List Album) (newAlbum : Album)
    (h : ∀ a ∈ albums, a.ID ≠ newAlbum.ID) :
    getAlbumByID (postAlbums albums newAlbum).1 newAlbum.ID
      = Response.ok newAlbum :=
  getAlbumByID_first albums newAlbum [] newAlbum.ID rfl h

/-- Witness for C3 (amended) at a concrete input: id "4" is fresh on the
seeded registry, and create-then-get returns the submitted record. -/
theorem C3_witness :
    (∀ a ∈ initialAlbums, a.ID ≠ "4")
    ∧ getAlbumByID (postAlbums initialAlbums
        { ID := "4", Title := "The Modern Sound of Betty Carter",
          Artist := "Betty Carter", Price := mkRat 4999 100 }).1 "4"
      = Response.ok { ID := "4", Title := "The Modern Sound of Betty Carter",
                      Artist := "Betty Carter", Price := mkRat 4999 100 } :=
  ⟨by decide,
   C3_create_then_get initialAlbums
     { ID := "4", Title := "The Modern Sound of Betty Carter",
       Artist := "Betty Carter", Price := mkRat 4999 100 } (by decide)⟩

/-- C4: `deleteAlbum` on a matching id removes exactly the first match,
reducing the length by one and preserving the relative order of the rest;
on a missing id it leaves the list unchanged and signals NotFound (and it
signals NotFound only then). -/
theorem C4_deleteAlbum_correct (albums : List Album) (id : String) :
    ((∀ a ∈ albums, a.ID ≠ id) →
      deleteAlbum albums id = (albums, Response.notFound "album not found"))
    ∧ ((deleteAlbum albums id).2 = Response.notFound "album not found" →
      ∀ a ∈ albums, a.ID ≠ id)
    ∧ (∀ l₁ a l₂, albums = l₁ ++ a :: l₂ → a.ID = id →
        (∀ b ∈ l₁, b.ID ≠ id) →
        deleteAlbum albums id = (l₁ ++ l₂, Response.okMsg "album deleted")
        ∧ (deleteAlbum albums id).1.length + 1 = albums.length) := by
  refine ⟨deleteAlbum_of_forall_ne albums id, deleteAlbum_notFound albums id, ?_⟩
  rintro l₁ a l₂ rfl ha hfirst
  have he := deleteAlbum_first l₁ a l₂ id ha hfirst
  refine ⟨he, ?_⟩
  rw [he]
  simp [Nat.add_assoc]

/-- Witness for C4 at a concrete input: deleting id "2" from the seeded
registry removes exactly the middle record. -/
theorem C4_witness :
    deleteAlbum initialAlbums "2"
      = ([{ ID := "1", Title := "Blue Train", Artist := "John Coltrane",
            Price := mkRat 5699 100 },
          { ID := "3", Title := "Sarah Vaughan and Clifford Brown",
            Artist := "Sarah Vaughan", Price := mkRat 3999 100 }],
         Response.okMsg "album deleted")
    ∧ (deleteAlbum initialAlbums "2").1.length + 1 = initialAlbums.length :=
  (C4_deleteAlbum_correct initialAlbums "2").2.2
    [{ ID := "1", Title := "Blue Train", Artist := "John Coltrane",
       Price := mkRat 5699 100 }]
    { ID := "2", Title := "Jeru", Artist := "Gerry Mulligan",
      Price := mkRat 1799 100 }
    [{ ID := "3", Title := "Sarah Vaughan and Clifford Brown",
       Artist := "Sarah Vaughan", Price := mkRat 3999 100 }]
    rfl rfl (by decide)

/-- C5: `updateAlbum` on a matching id rewrites only the first match, whose
Title/Artist are overwritten exactly when the patch field is non-empty and
whose Price is overwritten exactly when the patch price is non-zero (so a
patch price of 0 leaves the stored price unchanged); the id field is never
touched.  On a missing id it leaves the list unchanged and signals NotFound
(and it signals NotFound only then). -/
theorem C5_updateAlbum_correct (albums : List Album) (id : String) (patch : Album) :
    ((∀ a ∈ albums, a.ID ≠ id) →
      updateAlbum albums id patch = (albums, Response.notFound "album not found"))
    ∧ ((updateAlbum albums id patch).2 = Response.notFound "album not found" →
      ∀ a ∈ albums, a.ID ≠ id)
    ∧ (∀ l₁ a l₂, albums = l₁ ++ a :: l₂ → a.ID = id →
        (∀ b ∈ l₁, b.ID ≠ id) →
        updateAlbum albums id patch
          = (l₁ ++ applyPatch a patch :: l₂, Response.ok patch)
        ∧ (applyPatch a patch).ID = a.ID
        ∧ (patch.Title = "" → (applyPatch a patch).Title = a.Title)
        ∧ (patch.Title ≠ "" → (applyPatch a patch).Title = patch.Title)
        ∧ (patch.Artist = "" → (applyPatch a patch).Artist = a.Artist)
        ∧ (patch.Artist ≠ "" → (applyPatch a patch).Artist = patch.Artist)
        ∧ (patch.Price = 0 → (applyPatch a patch).Price = a.Price)
        ∧ (patch.Price ≠ 0 → (applyPatch a patch).Price = patch.Price)) := by
  refine ⟨updateAlbum_of_forall_ne albums id patch,
    updateAlbum_notFound albums id patch, ?_⟩
  rintro l₁ a l₂ rfl ha hfirst
  refine ⟨updateAlbum_first l₁ a l₂ id patch ha hfirst, rfl, ?_, ?_, ?_, ?_, ?_, ?_⟩
  all_goals intro hf
  all_goals simp [applyPatch, hf]

/-- Witness for C5 at a concrete input: patching id "1" on the seeded
registry with a new title, an empty artist and price 0 changes only the
title; in particular the stored price stays 56.99. -/
theorem C5_witness :
    updateAlbum initialAlbums "1"
        { ID := "", Title := "Kind of Blue", Artist := "", Price := 0 }
      = ([] ++ applyPatch
            { ID := "1", Title := "Blue Train", Artist := "John Coltrane",
              Price := mkRat 5699 100 }
            { ID := "", Title := "Kind of Blue", Artist := "", Price := 0 }
          :: [{ ID := "2", Title := "Jeru", Artist := "Gerry Mulligan",
                Price := mkRat 1799 100 },
              { ID := "3", Title := "Sarah Vaughan and Clifford Brown",
                Artist := "Sarah Vaughan", Price := mkRat 3999 100 }],
         Response.ok { ID := "", Title := "Kind of Blue", Artist := "",
                       Price := 0 })
    ∧ (applyPatch
        { ID := "1", Title := "Blue Train", Artist := "John Coltrane",
          Price := mkRat 5699 100 }
        { ID := "", Title := "Kind of Blue", Artist := "", Price := 0 }).Price
      = mkRat 5699 100 :=
  ⟨((C5_updateAlbum_correct initialAlbums "1"
      { ID := "", Title := "Kind of Blue", Artist := "", Price := 0 }).2.2
    []
    { ID := "1", Title := "Blue Train", Artist := "John Coltrane",
      Price := mkRat 5699 100 }
    [{ ID := "2", Title := "Jeru", Artist := "Gerry Mulligan",
       Price := mkRat 1799 100 },
     { ID := "3", Title := "Sarah Vaughan and Clifford Brown",
       Artist := "Sarah Vaughan", Price := mkRat 3999 100 }]
    rfl rfl (by decide)).1, by decide⟩

lemma updateAlbum_snd_of_mem (id : String) (patch : Album) :
    ∀ l : List Album, (∃ a ∈ l, a.ID = id) →
      (updateAlbum l id patch).2 = Response.ok patch := by
  intro l
  induction l with
  | nil => intro h; simp at h
  | cons b t ih =>
    intro h
    by_cases hb : b.ID = id
    · simp [updateAlbum, hb]
    · obtain ⟨a, ha, haid⟩ := h
      rcases List.mem_cons.mp ha with rfl | ha
      · exact absurd haid hb
      · simpa [updateAlbum, hb] using ih ⟨a, ha, haid⟩

/-- C6: whenever some stored record matches the path id, the PATCH handler's
success response body is the request payload `patch` echoed unchanged — not
the merged record written into the registry. -/
theorem C6_updateAlbum_echoes_input (albums : List Album) (id : String)
    (patch : Album) (h : ∃ a ∈ albums, a.ID = id) :
    (updateAlbum albums id patch).2 = Response.ok patch :=
  updateAlbum_snd_of_mem id patch albums h

/-- Witness for C6 at a concrete input: patching id "3" on the seeded
registry echoes the payload, which differs from the merged record stored. -/
theorem C6_witness :
    (updateAlbum initialAlbums "3"
        { ID := "", Title := "", Artist := "", Price := mkRat 1 2 }).2
      = Response.ok { ID := "", Title := "", Artist := "", Price := mkRat 1 2 }
    ∧ Response.ok { ID := "", Title := "", Artist := "", Price := mkRat 1 2 }
      ≠ Response.ok (applyPatch
          { ID := "3", Title := "Sarah Vaughan and Clifford Brown",
            Artist := "Sarah Vaughan", Price := mkRat 3999 100 }
          { ID := "", Title := "", Artist := "", Price := mkRat 1 2 }) :=
  ⟨C6_updateAlbum_echoes_input initialAlbums "3"
      { ID := "", Title := "", Artist := "", Price := mkRat 1 2 } (by decide),
   by decide⟩

lemma getElem?_append_cons (l₁ : List Album) (x : Album) (l₂ : List Album) :
    (l₁ ++ x :: l₂)[l₁.length]? = some x := by
  induction l₁ with
  | nil => simp
  | cons b t ih => simpa using ih

/-- C7: `overwriteAlbum` on a matching id replaces the first match in place
with the request body wholesale — in particular the stored element at that
position carries the body's id even when it differs from the path id; on a
missing id it leaves the list unchanged and signals NotFound (and it signals
NotFound only then). -/
theorem C7_overwriteAlbum_correct (albums : List Album) (id : String)
    (updatedAlbum : Album) :
    ((∀ a ∈ albums, a.ID ≠ id) →
      overwriteAlbum albums id updatedAlbum
        = (albums, Response.notFound "album not found"))
    ∧ ((overwriteAlbum albums id updatedAlbum).2
          = Response.notFound "album not found" →
      ∀ a ∈ albums, a.ID ≠ id)
    ∧ (∀ l₁ a l₂, albums = l₁ ++ a :: l₂ → a.ID = id →
        (∀ b ∈ l₁, b.ID ≠ id) →
        overwriteAlbum albums id updatedAlbum
          = (l₁ ++ updatedAlbum :: l₂, Response.ok updatedAlbum)
        ∧ (overwriteAlbum albums id updatedAlbum).1[l₁.length]?
            = some updatedAlbum) := by
  refine ⟨overwriteAlbum_of_forall_ne albums id updatedAlbum,
    overwriteAlbum_notFound albums id updatedAlbum, ?_⟩
  rintro l₁ a l₂ rfl ha hfirst
  have he := overwriteAlbum_first l₁ a l₂ id updatedAlbum ha hfirst
  refine ⟨he, ?_⟩
  rw [he]
  exact getElem?_append_cons l₁ updatedAlbum l₂

/-- Witness for C7 at a concrete input: a PUT on path id "1" with a body
whose id is "9" stores the body, id drift included, at the first position. -/
theorem C7_witness :
    overwriteAlbum initialAlbums "1"
        { ID := "9", Title := "Giant Steps", Artist := "John Coltrane",
          Price := 1 }
      = ([] ++ { ID := "9", Title := "Giant Steps", Artist := "John Coltrane",
                 Price := (1 : ℚ) }
           :: [{ ID := "2", Title := "Jeru", Artist := "Gerry Mulligan",
                 Price := mkRat 1799 100 },
               { ID := "3", Title := "Sarah Vaughan and Clifford Brown",
                 Artist := "Sarah Vaughan", Price := mkRat 3999 100 }],
         Response.ok { ID := "9", Title := "Giant Steps",
                       Artist := "John Coltrane", Price := 1 })
    ∧ Album.ID { ID := "9", Title := "Giant Steps", Artist := "John Coltrane",
                 Price := (1 : ℚ) } ≠ "1" :=
  ⟨((C7_overwriteAlbum_correct initialAlbums "1"
      { ID := "9", Title := "Giant Steps", Artist := "John Coltrane",
        Price := 1 }).2.2
    []
    { ID := "1", Title := "Blue Train", Artist := "John Coltrane",
      Price := mkRat 5699 100 }
    [{ ID := "2", Title := "Jeru", Artist := "Gerry Mulligan",
       Price := mkRat 1799 100 },
     { ID := "3", Title := "Sarah Vaughan and Clifford Brown",
       Artist := "Sarah Vaughan", Price := mkRat 3999 100 }]
    rfl rfl (by decide)).1, by decide⟩

/-- C9: when the registry decomposes as `l₁ ++ a :: l₂` with `a` the first
record matching the id (so `l₂` may hold further duplicates of that id),
PUT, PATCH and DELETE each touch only `a`: every record of `l₁` and of `l₂`
stays unchanged in value, and in position except for the shift caused by
DELETE's removal. -/
theorem C9_first_match_frame (l₁ : List Album) (a : Album) (l₂ : List Album)
    (id : String) (updatedAlbum patch : Album) (ha : a.ID = id)
    (hfirst : ∀ b ∈ l₁, b.ID ≠ id) :
    overwriteAlbum (l₁ ++ a :: l₂) id updatedAlbum
      = (l₁ ++ updatedAlbum :: l₂, Response.ok updatedAlbum)
    ∧ updateAlbum (l₁ ++ a :: l₂) id patch
      = (l₁ ++ applyPatch a patch :: l₂, Response.ok patch)
    ∧ deleteAlbum (l₁ ++ a :: l₂) id
      = (l₁ ++ l₂, Response.okMsg "album deleted") :=
  ⟨overwriteAlbum_first l₁ a l₂ id updatedAlbum ha hfirst,
   updateAlbum_first l₁ a l₂ id patch ha hfirst,
   deleteAlbum_first l₁ a l₂ id ha hfirst⟩

/-- Witness for C9 at a concrete input holding two records with id "1": all
three operations leave the later duplicate untouched. -/
theorem C9_witness :
    overwriteAlbum
        ([{ ID := "0", Title := "z", Artist := "z", Price := 0 }]
          ++ { ID := "1", Title := "first", Artist := "f", Price := 1 }
          :: [{ ID := "1", Title := "second", Artist := "s", Price := 2 }])
        "1" { ID := "9", Title := "r", Artist := "r", Price := 3 }
      = ([{ ID := "0", Title := "z", Artist := "z", Price := 0 }]
          ++ { ID := "9", Title := "r", Artist := "r", Price := 3 }
          :: [{ ID := "1", Title := "second", Artist := "s", Price := 2 }],
         Response.ok { ID := "9", Title := "r", Artist := "r", Price := 3 })
    ∧ updateAlbum
        ([{ ID := "0", Title := "z", Artist := "z", Price := 0 }]
          ++ { ID := "1", Title := "first", Artist := "f", Price := 1 }
          :: [{ ID := "1", Title := "second", Artist := "s", Price := 2 }])
        "1" { ID := "", Title := "t", Artist := "", Price := 0 }
      = ([{ ID := "0", Title := "z", Artist := "z", Price := 0 }]
          ++ applyPatch { ID := "1", Title := "first", Artist := "f", Price := 1 }
               { ID := "", Title := "t", Artist := "", Price := 0 }
          :: [{ ID := "1", Title := "second", Artist := "s", Price := 2 }],
         Response.ok { ID := "", Title := "t", Artist := "", Price := 0 })
    ∧ deleteAlbum
        ([{ ID := "0", Title := "z", Artist := "z", Price := 0 }]
          ++ { ID := "1", Title := "first", Artist := "f", Price := 1 }
          :: [{ ID := "1", Title := "second", Artist := "s", Price := 2 }])
        "1"
      = ([{ ID := "0", Title := "z", Artist := "z", Price := 0 }]
          ++ [{ ID := "1", Title := "second", Artist := "s", Price := 2 }],
         Response.okMsg "album deleted") :=
  C9_first_match_frame
    [{ ID := "0", Title := "z", Artist := "z", Price := 0 }]
    { ID := "1", Title := "first", Artist := "f", Price := 1 }
    [{ ID := "1", Title := "second", Artist := "s", Price := 2 }]
    "1"
    { ID := "9", Title := "r", Artist := "r", Price := 3 }
    { ID := "", Title := "t", Artist := "", Price := 0 }
    rfl (by decide)

/-- C10: when no stored record matches the id, PUT and PATCH leave the whole
registry sequence unchanged and only signal NotFound — the failure is
atomic. -/
theorem C10_notFound_atomic (albums : List Album) (id : String)
    (updatedAlbum patch : Album) (h : ∀ a ∈ albums, a.ID ≠ id) :
    overwriteAlbum albums id updatedAlbum
      = (albums, Response.notFound "album not found")
    ∧ updateAlbum albums id patch
      = (albums, Response.notFound "album not found") :=
  ⟨overwriteAlbum_of_forall_ne albums id updatedAlbum h,
   updateAlbum_of_forall_ne albums id patch h⟩

/-- Witness for C10 at a concrete input: id "7" matches nothing in the
seeded registry, and PUT and PATCH leave it exactly as it was. -/
theorem C10_witness :
    overwriteAlbum initialAlbums "7"
        { ID := "7", Title := "x", Artist := "x", Price := 1 }
      = (initialAlbums, Response.notFound "album not found")
    ∧ updateAlbum initialAlbums "7"
        { ID := "", Title := "y", Artist := "", Price := 0 }
      = (initialAlbums, Response.notFound "album not found") :=
  C10_notFound_atomic initialAlbums "7"
    { ID := "7", Title := "x", Artist := "x", Price := 1 }
    { ID := "", Title := "y", Artist := "", Price := 0 }
    (by decide)

end AlbumRegistry
